import Mathlib

/-!
Shallow embedding of the home-video-surveillance dashboard frontend
(Vue single-file components and Pinia stores), restricted to the state
and effects of the functions under verification.  Each definition is a
direct transcription of one source function: reactive refs become
explicit state records, user-visible notifications and network requests
become effect lists returned alongside the new state, and `setTimeout`
calls become scheduled-timer records.  JavaScript numbers are modelled
as `ℚ` where the code does coordinate arithmetic and as `ℤ`/`ℕ` for
counters and sizes.
-/

/-- A 2-D point as stored in a zone's coordinate list (`{x, y}`). -/
structure Point where
  x : ℚ
  y : ℚ
deriving DecidableEq, Repr

/-- A user-visible toast notification (`ElMessage.warning/error/success`). -/
inductive Msg where
  | warning (text : String)
  | error (text : String)
  | success (text : String)
deriving DecidableEq, Repr

/-- The action a `setTimeout` callback performs. -/
inductive ScheduledAction where
  | reconnectWebSocket
  | refreshStream
deriving DecidableEq, Repr

/-- One scheduled `setTimeout` with its delay (milliseconds) and action. -/
structure Timer where
  delayMs : Nat
  action : ScheduledAction
deriving DecidableEq, Repr

namespace EventStore

/-- An event DTO as the event store touches it: the store logic reads and
writes only `id` and `is_read`. -/
structure Event where
  id : Nat
  is_read : Bool
deriving DecidableEq, Repr

/-- The relevant state of the `events` Pinia store. `unreadCount` is a
JavaScript number, modelled as `ℤ` so that the floor-at-zero behaviour is
meaningful. -/
structure EventStoreState where
  events : List Event
  recentEvents : List Event
  unreadCount : ℤ
deriving DecidableEq, Repr

/-- Set an event's `is_read` flag (the `event.is_read = true` mutation). -/
def setRead (e : Event) : Event :=
  { e with is_read := true }

/-- `list.find(e => e.id === eventId)` followed by mutating the found
object: the first event with the given id gets `is_read := true`. -/
def markFirst (eventId : Nat) : List Event → List Event
  | [] => []
  | e :: rest =>
      if e.id = eventId then setRead e :: rest
      else e :: markFirst eventId rest

/-- `markEventAsRead` from `src/frontend/src/stores/events.js` (lines
49-71).  `requestOk` is whether the `PUT /api/events/:id/read` request
succeeded; on failure the catch block rethrows without touching state. -/
def markEventAsRead (s : EventStoreState) (eventId : Nat) (requestOk : Bool) :
    EventStoreState :=
  if requestOk = false then s
  else
    { events := markFirst eventId s.events
      recentEvents := markFirst eventId s.recentEvents
      unreadCount :=
        if s.unreadCount > 0 then s.unreadCount - 1 else s.unreadCount }

/-- `markAllAsRead` from `src/frontend/src/stores/events.js` (lines
73-89). -/
def markAllAsRead (s : EventStoreState) (requestOk : Bool) : EventStoreState :=
  if requestOk = false then s
  else
    { events := s.events.map setRead
      recentEvents := s.recentEvents.map setRead
      unreadCount := 0 }

/-- `addRealtimeEvent` from `src/frontend/src/stores/events.js` (lines
91-105): unshift onto both caches, truncate `recentEvents` to 50, bump
the unread count when the pushed event is unread. -/
def addRealtimeEvent (s : EventStoreState) (event : Event) : EventStoreState :=
  let recentEvents := event :: s.recentEvents
  let events := event :: s.events
  let recentEvents :=
    if recentEvents.length > 50 then recentEvents.take 50 else recentEvents
  let unreadCount :=
    if event.is_read = false then s.unreadCount + 1 else s.unreadCount
  { events := events, recentEvents := recentEvents, unreadCount := unreadCount }

end EventStore

/-- A canvas backing store's pixel dimensions (`canvas.width/height`). -/
structure CanvasDims where
  width : Nat
  height : Nat
deriving DecidableEq, Repr

/-- The load-relevant state of the streaming `<img>` element. -/
structure ImageEl where
  complete : Bool
  naturalWidth : Nat
  naturalHeight : Nat
deriving DecidableEq, Repr

namespace FaceRecognition

/-- The canvas-sizing effect of `drawVideoFrame` in the face-recognition
view (`src/unnamed/part_001` lines 183-217): skip when the image has not
finished loading or has zero natural width; otherwise reassign the
backing store to `naturalWidth || 640` by `naturalHeight || 480`, but
only when either dimension differs.  The returned flag records whether
the backing store was reassigned (a reassignment clears the canvas). -/
def drawVideoFrame_canvas (canvas : CanvasDims) (video : ImageEl) :
    CanvasDims × Bool :=
  if video.complete = false ∨ video.naturalWidth = 0 then (canvas, false)
  else if canvas.width ≠ video.naturalWidth ∨
      canvas.height ≠ video.naturalHeight then
    (⟨if video.naturalWidth = 0 then 640 else video.naturalWidth,
      if video.naturalHeight = 0 then 480 else video.naturalHeight⟩, true)
  else (canvas, false)

end FaceRecognition

namespace Zones

/-- The canvas-sizing effect of `drawFrame` in the zones view
(`Zones.vue` lines 239-284): the backing store is assigned the fixed
size 640x480 at the top of every tick, before any of the camera-status,
error, or image-loaded checks run, so the assignment (and the clear it
causes) happens unconditionally and never consults the image's natural
dimensions. -/
def drawFrame_canvas (canvas : CanvasDims) (cameraRunning : Bool)
    (videoError : Bool) (video : ImageEl) : CanvasDims × Bool :=
  (⟨640, 480⟩, true)

/-- An editable zone form (`zoneForm` reactive object in `Zones.vue`). -/
structure ZoneForm where
  name : String
  stay_threshold : Nat
  is_active : Bool
  coordinates : List Point
deriving DecidableEq, Repr

/-- The zones-page state touched by the drawing and submission handlers.
`editingZone` holds the id of the zone being edited, if any. -/
structure ZonesPageState where
  drawMode : Bool
  currentPoints : List Point
  zoneForm : ZoneForm
  showZoneDialog : Bool
  submitting : Bool
  editingZone : Option Nat
deriving DecidableEq, Repr

/-- The payload `zoneData` built by `submitZoneForm`. -/
structure ZoneData where
  name : String
  zone_type : String
  coordinates : List Point
  stay_threshold : Nat
  is_active : Bool
deriving DecidableEq, Repr

/-- A REST request issued by the zones page. -/
inductive NetworkCall where
  | postZone (data : ZoneData)
  | putZone (id : Nat) (data : ZoneData)
  | getZones
deriving DecidableEq, Repr

/-- The zone-submission payloads among a batch of requests. -/
def submissionPayloads (calls : List NetworkCall) : List ZoneData :=
  calls.filterMap fun c =>
    match c with
    | NetworkCall.postZone d => some d
    | NetworkCall.putZone _ d => some d
    | NetworkCall.getZones => none

/-- `handleRightClick` from `Zones.vue` (lines 393-405): reject with a
warning unless drawing mode is on and at least 3 points were collected;
otherwise copy the point buffer into the form and open the dialog.  The
handler never issues a request. -/
def handleRightClick (s : ZonesPageState) :
    ZonesPageState × List Msg × List NetworkCall :=
  if s.drawMode = false ∨ s.currentPoints.length < 3 then
    (s, [Msg.warning "至少需要3个点才能完成区域绘制"], [])
  else
    ({ s with
        zoneForm := { s.zoneForm with coordinates := s.currentPoints }
        showZoneDialog := true
        drawMode := false }, [], [])

/-- `resetZoneForm` from `Zones.vue` (lines 521-531). -/
def resetZoneForm (s : ZonesPageState) : ZonesPageState :=
  { s with
      zoneForm := ⟨"", 10, true, []⟩
      currentPoints := []
      editingZone := none }

/-- `submitZoneForm` from `Zones.vue` (lines 483-519).  `validateOk` is
the outcome of `zoneFormRef.validate()` (a throw lands in the catch
block), `requestOk` the outcome of the zone PUT/POST.  The `finally`
block clears `submitting` on every path; on success the dialog closes,
the form resets and a zone-list refetch is issued. -/
def submitZoneForm (s : ZonesPageState) (validateOk : Bool)
    (requestOk : Bool) : ZonesPageState × List Msg × List NetworkCall :=
  if validateOk = false then
    ({ s with submitting := false },
      [Msg.error (if s.editingZone.isSome then "更新失败" else "创建失败")], [])
  else if s.zoneForm.coordinates.length < 3 then
    ({ s with submitting := false }, [Msg.error "请至少绘制3个顶点"], [])
  else
    let zoneData : ZoneData :=
      ⟨s.zoneForm.name, "polygon", s.zoneForm.coordinates,
        s.zoneForm.stay_threshold, s.zoneForm.is_active⟩
    match s.editingZone with
    | some zid =>
        if requestOk then
          ({ resetZoneForm s with showZoneDialog := false, submitting := false },
            [Msg.success "危险区域更新成功"],
            [NetworkCall.putZone zid zoneData, NetworkCall.getZones])
        else
          ({ s with submitting := false }, [Msg.error "更新失败"],
            [NetworkCall.putZone zid zoneData])
    | none =>
        if requestOk then
          ({ resetZoneForm s with showZoneDialog := false, submitting := false },
            [Msg.success "危险区域创建成功"],
            [NetworkCall.postZone zoneData, NetworkCall.getZones])
        else
          ({ s with submitting := false }, [Msg.error "创建失败"],
            [NetworkCall.postZone zoneData])

/-- The client bounding rectangle of the canvas as displayed (CSS pixel
space). -/
structure DOMRect where
  left : ℚ
  top : ℚ
  width : ℚ
  height : ℚ
deriving DecidableEq, Repr

/-- A mouse click in viewport coordinates. -/
structure ClickEvent where
  clientX : ℚ
  clientY : ℚ
deriving DecidableEq, Repr

/-- `handleCanvasClick` from `Zones.vue` (lines 373-391): ignore clicks
outside drawing mode; otherwise translate the click into the canvas
rectangle, rescale by backing-size over CSS-size per axis, and push the
point onto the in-progress buffer. -/
def handleCanvasClick (drawMode : Bool) (currentPoints : List Point)
    (canvas : CanvasDims) (rect : DOMRect) (event : ClickEvent) :
    List Point :=
  if drawMode = false then currentPoints
  else
    let x := event.clientX - rect.left
    let y := event.clientY - rect.top
    let scaleX := (canvas.width : ℚ) / rect.width
    let scaleY := (canvas.height : ℚ) / rect.height
    currentPoints ++ [⟨x * scaleX, y * scaleY⟩]

/-- `handleVideoError` from the zones view (`Zones.vue` lines 411-415):
set the error flag and surface one notification; nothing is scheduled. -/
def handleVideoError (videoError : Bool) : Bool × List Msg × List Timer :=
  (true, [Msg.error "视频流连接失败，请检查摄像头状态"], [])

end Zones

namespace LiveMonitor

/-- The `realtime_alert` / `event_alert` branch of the LiveMonitor
`ws.onmessage` handler (`Zones.vue` lines 1210-1214): unshift the alert,
truncate the list to 10 entries. -/
def alertMessageUpdate {α : Type} (realtimeAlerts : List α) (data : α) :
    List α :=
  let realtimeAlerts := data :: realtimeAlerts
  if realtimeAlerts.length > 10 then realtimeAlerts.take 10
  else realtimeAlerts

/-- The LiveMonitor `ws.onclose` handler (`Zones.vue` lines 1221-1223):
its entire body is one `setTimeout(initWebSocket, 3000)`. -/
def ws_onclose : List Timer :=
  [⟨3000, ScheduledAction.reconnectWebSocket⟩]

/-- The timers scheduled over a run of `n` close events, each handled by
`ws_onclose`.  The handler keeps no attempt counter, so every close
contributes the same single fixed-delay reconnect. -/
def scheduledAfterCloses : Nat → List Timer
  | 0 => []
  | n + 1 => scheduledAfterCloses n ++ ws_onclose

/-- The LiveMonitor `handleVideoError` (`Zones.vue` lines 1100-1111):
for the first three stream-load errors it schedules a `refreshStream`
after `1000 * retry` ms (retry count incremented first) and shows
nothing; from the fourth error on it surfaces one notification and
schedules nothing. -/
def handleVideoError (videoErrorRetry : Nat) :
    Nat × List Msg × List Timer :=
  if videoErrorRetry < 3 then
    (videoErrorRetry + 1, [],
      [⟨1000 * (videoErrorRetry + 1), ScheduledAction.refreshStream⟩])
  else
    (videoErrorRetry, [Msg.error "视频流连接失败，请稍后重试"], [])

end LiveMonitor

namespace FaceRecognition

/-- The face-recognition `ws.onclose` handler (`src/unnamed/part_001`
lines 351-355): clear the connected flag and schedule one reconnect
after 3000 ms. -/
def ws_onclose (wsConnected : Bool) : Bool × List Timer :=
  (false, [⟨3000, ScheduledAction.reconnectWebSocket⟩])

end FaceRecognition

namespace FaceAdmin

/-- A registered face row as the status toggle touches it. -/
structure FaceUser where
  id : Nat
  is_active : Bool
deriving DecidableEq, Repr

/-- The `el-switch` `v-model` binding (`src/unnamed/part_000` lines
433-438): the change gesture flips the displayed flag before the change
handler runs. -/
def switchToggle (user : FaceUser) : FaceUser :=
  { user with is_active := !user.is_active }

/-- `toggleUserStatus` from `src/unnamed/part_000` (lines 864-874):
PUT the (already flipped) flag; on failure roll the displayed flag
back. -/
def toggleUserStatus (user : FaceUser) (requestOk : Bool) :
    FaceUser × List Msg :=
  if requestOk then
    (user,
      [Msg.success (if user.is_active then "用户已启用" else "用户已禁用")])
  else
    ({ user with is_active := !user.is_active }, [Msg.error "状态更新失败"])

/-- The whole toggle interaction: the switch flips the flag, then the
change handler runs against the given request outcome. -/
def toggleFlow (user : FaceUser) (requestOk : Bool) : FaceUser × List Msg :=
  toggleUserStatus (switchToggle user) requestOk

end FaceAdmin

namespace SlideVerify

/-- `thumbWidth` from `SlideVerify.vue` (line 29). -/
def thumbWidth : ℚ := 40

/-- The slider state (`SlideVerify.vue` refs). -/
structure SlideState where
  trackWidth : ℚ
  thumbLeft : ℚ
  isDragging : Bool
  isVerified : Bool
deriving DecidableEq, Repr

/-- An event emitted to the parent component. -/
inductive SlideEmit where
  | verifySuccess
  | verifyFail
deriving DecidableEq, Repr

/-- `endSlide` from `SlideVerify.vue` (lines 70-93): ignore when not
dragging; otherwise succeed exactly when the thumb offset reached
`trackWidth - thumbWidth - 5`, snapping the thumb to the track end, and
reset the thumb to 0 on a shorter release. -/
def endSlide (s : SlideState) : SlideState × List SlideEmit :=
  if s.isDragging = false then (s, [])
  else
    let threshold := s.trackWidth - thumbWidth - 5
    if s.thumbLeft ≥ threshold then
      ({ s with
          isDragging := false
          isVerified := true
          thumbLeft := s.trackWidth - thumbWidth }, [SlideEmit.verifySuccess])
    else
      ({ s with isDragging := false, thumbLeft := 0 }, [SlideEmit.verifyFail])

end SlideVerify

namespace Login

/-- An authentication request issued by the login page. -/
inductive AuthCall where
  | loginRequest
  | registerRequest
deriving DecidableEq, Repr

/-- `handleLogin` from the login view (`Zones.vue` lines 1620-1667):
bail out with a warning when slide verification has not succeeded,
silently when form validation fails; only then issue the login fetch.
`response` is `some success-flag` for a reply, `none` for a network
error.  Returns the slide-verified flag after the handler, the
notifications, and the requests issued. -/
def handleLogin (isLoginSlideVerified : Bool) (formValid : Bool)
    (response : Option Bool) : Bool × List Msg × List AuthCall :=
  if isLoginSlideVerified = false then
    (false, [Msg.warning "请先完成滑块验证"], [])
  else if formValid = false then (true, [], [])
  else
    match response with
    | some true => (true, [Msg.success "登录成功"], [AuthCall.loginRequest])
    | some false =>
        (false, [Msg.error "登录失败"], [AuthCall.loginRequest])
    | none =>
        (false, [Msg.error "网络错误，请稍后重试"], [AuthCall.loginRequest])

/-- `handleRegister` from the login view (`Zones.vue` lines 1670-1722):
same gating as `handleLogin`, issuing the register fetch; the slide is
reset on every response path. -/
def handleRegister (isRegisterSlideVerified : Bool) (formValid : Bool)
    (response : Option Bool) : Bool × List Msg × List AuthCall :=
  if isRegisterSlideVerified = false then
    (false, [Msg.warning "请先完成滑块验证"], [])
  else if formValid = false then (true, [], [])
  else
    match response with
    | some true =>
        (false, [Msg.success "注册成功，请登录"], [AuthCall.registerRequest])
    | some false =>
        (false, [Msg.error "注册失败"], [AuthCall.registerRequest])
    | none =>
        (false, [Msg.error "网络错误，请稍后重试"], [AuthCall.registerRequest])

end Login

/-- If the truncation bound is positive, the freshly consed element stays
at the head after `take`. -/
lemma head?_take_cons {α : Type} (a : α) (l : List α) (n : Nat) (h : 0 < n) :
    ((a :: l).take n).head? = some a := by
  cases n with
  | zero => exact absurd h (by simp)
  | succ m => simp

/-- C6: marking one event read decrements the cached unread count by
exactly 1 when it is positive and leaves it at 0 otherwise, so a
non-negative count never becomes negative; marking all events read sets
the unread count to 0 and sets the read flag of every event in both the
events cache and the recent-events cache. -/
theorem C6_mark_read_counts :
    (∀ (s : EventStore.EventStoreState) (eventId : Nat),
        (EventStore.markEventAsRead s eventId true).unreadCount =
            (if 0 < s.unreadCount then s.unreadCount - 1 else s.unreadCount) ∧
          (0 ≤ s.unreadCount →
            0 ≤ (EventStore.markEventAsRead s eventId true).unreadCount)) ∧
      ∀ (s : EventStore.EventStoreState),
        (EventStore.markAllAsRead s true).unreadCount = 0 ∧
          (∀ e ∈ (EventStore.markAllAsRead s true).events, e.is_read = true) ∧
          (∀ e ∈ (EventStore.markAllAsRead s true).recentEvents,
            e.is_read = true) := by
  constructor
  · intro s eventId
    constructor
    · simp [EventStore.markEventAsRead]
    · intro h
      simp only [EventStore.markEventAsRead, Bool.true_eq_false, if_false]
      split <;> omega
  · intro s
    refine ⟨rfl, ?_, ?_⟩ <;>
      · intro e he
        simp only [EventStore.markAllAsRead, Bool.true_eq_false, if_false,
          List.mem_map] at he
        obtain ⟨e₀, _, rfl⟩ := he
        rfl

/-- C6 witness: on a store with unread count 3, marking one event read
yields unread count 2, and the count stays non-negative. -/
theorem C6_mark_read_counts_witness :
    0 ≤ (3 : ℤ) ∧
      (EventStore.markEventAsRead ⟨[], [], 3⟩ 7 true).unreadCount = 2 := by
  refine ⟨by decide, ?_⟩
  have h := (C6_mark_read_counts.1 ⟨[], [], 3⟩ 7).1
  simpa using h

/-- C10: the decrement in `markEventAsRead` is guarded only by
`unreadCount > 0`; it happens whether or not the event id occurs in
either cached list and whether or not the event was already read. -/
theorem C10_decrement_only_guard :
    ∀ (s : EventStore.EventStoreState) (eventId : Nat),
      (EventStore.markEventAsRead s eventId true).unreadCount =
          (if 0 < s.unreadCount then s.unreadCount - 1 else s.unreadCount) ∧
        ((∀ e ∈ s.events, e.id ≠ eventId) →
          (∀ e ∈ s.recentEvents, e.id ≠ eventId) →
          0 < s.unreadCount →
          (EventStore.markEventAsRead s eventId true).unreadCount =
            s.unreadCount - 1) ∧
        ((∀ e ∈ s.events, e.id = eventId → e.is_read = true) →
          0 < s.unreadCount →
          (EventStore.markEventAsRead s eventId true).unreadCount =
            s.unreadCount - 1) := by
  intro s eventId
  refine ⟨by simp [EventStore.markEventAsRead], ?_, ?_⟩
  · intro _ _ hpos
    simp [EventStore.markEventAsRead, hpos]
  · intro _ hpos
    simp [EventStore.markEventAsRead, hpos]

/-- C10 witness: an event id absent from both caches (and an already-read
cached event) still sees the unread count drop from 2 to 1. -/
theorem C10_decrement_only_guard_witness :
    (∀ e ∈ [(⟨1, true⟩ : EventStore.Event)], e.id ≠ 99) ∧
      0 < (2 : ℤ) ∧
      (EventStore.markEventAsRead ⟨[⟨1, true⟩], [], 2⟩ 99 true).unreadCount =
        2 - 1 :=
  ⟨by decide, by decide,
    (C10_decrement_only_guard ⟨[⟨1, true⟩], [], 2⟩ 99).2.1
      (by decide) (by decide) (by decide)⟩

/-- C8: after every `addRealtimeEvent` the recent-events cache has at
most 50 entries with the pushed event at the front (the events cache also
gets it at the front), and the unread count is incremented exactly when
the pushed event is unread; the LiveMonitor alert branch likewise keeps
at most 10 alerts, newest first. -/
theorem C8_realtime_caches :
    (∀ (s : EventStore.EventStoreState) (e : EventStore.Event),
        (EventStore.addRealtimeEvent s e).recentEvents.length ≤ 50 ∧
          (EventStore.addRealtimeEvent s e).recentEvents.head? = some e ∧
          (EventStore.addRealtimeEvent s e).events.head? = some e ∧
          (EventStore.addRealtimeEvent s e).unreadCount =
            (if e.is_read = false then s.unreadCount + 1
             else s.unreadCount)) ∧
      ∀ (α : Type) (alerts : List α) (d : α),
        (LiveMonitor.alertMessageUpdate alerts d).length ≤ 10 ∧
          (LiveMonitor.alertMessageUpdate alerts d).head? = some d := by
  constructor
  · intro s e
    refine ⟨?_, ?_, rfl, rfl⟩
    · simp only [EventStore.addRealtimeEvent]
      split
      · rw [List.length_take]; exact min_le_left _ _
      · omega
    · simp only [EventStore.addRealtimeEvent]
      split
      · exact head?_take_cons e s.recentEvents 50 (by omega)
      · rfl
  · intro α alerts d
    constructor
    · simp only [LiveMonitor.alertMessageUpdate]
      split
      · rw [List.length_take]; exact min_le_left _ _
      · omega
    · simp only [LiveMonitor.alertMessageUpdate]
      split
      · exact head?_take_cons d alerts 10 (by omega)
      · rfl

/-- C1 counterexample: on a tick where the zones-page source image has
finished loading with native size 1280x720, `drawFrame` leaves the
canvas backing store at 640x480 (not the native size) and reassigns the
backing store even though its dimensions did not change. -/
theorem C1_native_dims_counterexample :
    (Zones.drawFrame_canvas ⟨640, 480⟩ true false ⟨true, 1280, 720⟩).1 ≠
        ⟨1280, 720⟩ ∧
      (Zones.drawFrame_canvas ⟨640, 480⟩ true false ⟨true, 1280, 720⟩).2 =
        true := by
  decide

/-- C1 (amended): in the face-recognition view, every tick whose source
image has finished loading with nonzero natural dimensions sets the
canvas backing store to naturalWidth x naturalHeight and reassigns it
only when the dimensions differ; in the zones view, `drawFrame`
unconditionally reassigns the backing store to the fixed size 640x480 on
every tick, regardless of the image. -/
theorem C1_native_dims_amended :
    (∀ (c : CanvasDims) (img : ImageEl),
        img.complete = true → img.naturalWidth ≠ 0 → img.naturalHeight ≠ 0 →
          (FaceRecognition.drawVideoFrame_canvas c img).1 =
              ⟨img.naturalWidth, img.naturalHeight⟩ ∧
            (c = ⟨img.naturalWidth, img.naturalHeight⟩ →
              FaceRecognition.drawVideoFrame_canvas c img = (c, false)) ∧
            (c ≠ ⟨img.naturalWidth, img.naturalHeight⟩ →
              (FaceRecognition.drawVideoFrame_canvas c img).2 = true)) ∧
      ∀ (c : CanvasDims) (run err : Bool) (img : ImageEl),
        Zones.drawFrame_canvas c run err img = (⟨640, 480⟩, true) := by
  constructor
  · intro c img hc hw hh
    by_cases h2 : c.width ≠ img.naturalWidth ∨ c.height ≠ img.naturalHeight
    · refine ⟨?_, ?_, ?_⟩
      · simp [FaceRecognition.drawVideoFrame_canvas, hc, hw, hh, h2]
      · intro hceq
        subst hceq
        simp at h2
      · intro _
        simp [FaceRecognition.drawVideoFrame_canvas, hc, hw, h2]
    · push_neg at h2
      obtain ⟨h2a, h2b⟩ := h2
      have hceq : c = ⟨img.naturalWidth, img.naturalHeight⟩ := by
        cases c
        simp_all
      refine ⟨?_, ?_, ?_⟩
      · rw [hceq]
        simp [FaceRecognition.drawVideoFrame_canvas, hc, hw]
      · intro _
        rw [hceq]
        simp [FaceRecognition.drawVideoFrame_canvas, hc, hw]
      · intro hne
        exact absurd hceq hne
  · intro c run err img
    rfl

/-- C1 witness: a loaded 1280x720 image resizes a 640x480 canvas to
1280x720 in the face-recognition view. -/
theorem C1_native_dims_amended_witness :
    (⟨true, 1280, 720⟩ : ImageEl).complete = true ∧
      (FaceRecognition.drawVideoFrame_canvas ⟨640, 480⟩
          ⟨true, 1280, 720⟩).1 = ⟨1280, 720⟩ :=
  ⟨rfl,
    (C1_native_dims_amended.1 ⟨640, 480⟩ ⟨true, 1280, 720⟩ rfl
        (by decide) (by decide)).1⟩

/-- C2: the right-click finishing gesture with fewer than 3 collected
points is rejected with a warning, leaves the state unchanged and issues
no request (the gesture never issues requests at all); the zone-form
submit with fewer than 3 coordinates is rejected with a notification,
leaves the state unchanged and issues no request; and every zone
submission payload that is issued carries at least 3 points. -/
theorem C2_min_three_points :
    (∀ (s : Zones.ZonesPageState), s.currentPoints.length < 3 →
        Zones.handleRightClick s =
          (s, [Msg.warning "至少需要3个点才能完成区域绘制"], [])) ∧
      (∀ (s : Zones.ZonesPageState), (Zones.handleRightClick s).2.2 = []) ∧
      (∀ (s : Zones.ZonesPageState) (rOk : Bool), s.submitting = false →
        s.zoneForm.coordinates.length < 3 →
        Zones.submitZoneForm s true rOk =
          (s, [Msg.error "请至少绘制3个顶点"], [])) ∧
      ∀ (s : Zones.ZonesPageState) (vOk rOk : Bool) (d : Zones.ZoneData),
        d ∈ Zones.submissionPayloads (Zones.submitZoneForm s vOk rOk).2.2 →
          3 ≤ d.coordinates.length := by
  refine ⟨?_, ?_, ?_, ?_⟩
  · intro s h
    unfold Zones.handleRightClick
    rw [if_pos (Or.inr h)]
  · intro s
    unfold Zones.handleRightClick
    split <;> rfl
  · intro s rOk hsub hlen
    have hs : { s with submitting := false } = s := by
      cases s
      simp_all
    simp only [Zones.submitZoneForm, Bool.true_eq_false, if_false,
      if_pos hlen]
    rw [hs]
  · intro s vOk rOk d hd
    by_cases hv : vOk = false
    · simp [Zones.submitZoneForm, hv, Zones.submissionPayloads] at hd
    · by_cases hlen : s.zoneForm.coordinates.length < 3
      · simp [Zones.submitZoneForm, hv, hlen, Zones.submissionPayloads] at hd
      · push_neg at hlen
        cases hz : s.editingZone with
        | some zid =>
            cases rOk <;>
              · simp [Zones.submitZoneForm, hv, Nat.not_lt.mpr hlen, hz,
                  Zones.submissionPayloads] at hd
                subst hd
                simpa using hlen
        | none =>
            cases rOk <;>
              · simp [Zones.submitZoneForm, hv, Nat.not_lt.mpr hlen, hz,
                  Zones.submissionPayloads] at hd
                subst hd
                simpa using hlen

/-- C2 witness: a two-point buffer is rejected by both the right-click
gesture and the form submit, with the state unchanged and no request. -/
theorem C2_min_three_points_witness :
    ([(⟨1, 1⟩ : Point), ⟨2, 2⟩].length < 3) ∧
      Zones.handleRightClick
          ⟨true, [⟨1, 1⟩, ⟨2, 2⟩], ⟨"z", 10, true, [⟨1, 1⟩, ⟨2, 2⟩]⟩,
            true, false, none⟩ =
        (⟨true, [⟨1, 1⟩, ⟨2, 2⟩], ⟨"z", 10, true, [⟨1, 1⟩, ⟨2, 2⟩]⟩,
            true, false, none⟩,
          [Msg.warning "至少需要3个点才能完成区域绘制"], []) ∧
      Zones.submitZoneForm
          ⟨true, [⟨1, 1⟩, ⟨2, 2⟩], ⟨"z", 10, true, [⟨1, 1⟩, ⟨2, 2⟩]⟩,
            true, false, none⟩ true true =
        (⟨true, [⟨1, 1⟩, ⟨2, 2⟩], ⟨"z", 10, true, [⟨1, 1⟩, ⟨2, 2⟩]⟩,
            true, false, none⟩,
          [Msg.error "请至少绘制3个顶点"], []) :=
  ⟨by decide,
    C2_min_three_points.1 _ (by decide),
    C2_min_three_points.2.2.1 _ true rfl (by decide)⟩

/-- C3: a click captured in drawing mode at viewport position
(clientX, clientY) over a canvas displayed with client rectangle
(left, top, w, h) and backing size (W, H) appends exactly the point
((clientX - left) * W / w, (clientY - top) * H / h) to the in-progress
buffer. -/
theorem C3_click_rescale :
    ∀ (pts : List Point) (canvas : CanvasDims) (rect : Zones.DOMRect)
      (ev : Zones.ClickEvent),
      Zones.handleCanvasClick true pts canvas rect ev =
        pts ++
          [⟨(ev.clientX - rect.left) * (canvas.width : ℚ) / rect.width,
            (ev.clientY - rect.top) * (canvas.height : ℚ) / rect.height⟩] := by
  intro pts canvas rect ev
  simp [Zones.handleCanvasClick, mul_div_assoc]

/-- C4: each WebSocket close event is handled by scheduling exactly one
reconnect with the fixed 3000 ms delay, in both the live-monitor and the
face-recognition views; over any number n of closes exactly n reconnect
timers are scheduled, all with delay 3000 and independent of any attempt
count (no backoff, no cap). -/
theorem C4_reconnect_single_fixed_delay :
    LiveMonitor.ws_onclose =
        [⟨3000, ScheduledAction.reconnectWebSocket⟩] ∧
      (∀ b, FaceRecognition.ws_onclose b =
        (false, [⟨3000, ScheduledAction.reconnectWebSocket⟩])) ∧
      ∀ n, (LiveMonitor.scheduledAfterCloses n).length = n ∧
        ∀ t ∈ LiveMonitor.scheduledAfterCloses n,
          t = ⟨3000, ScheduledAction.reconnectWebSocket⟩ := by
  refine ⟨rfl, fun b => rfl, ?_⟩
  intro n
  induction n with
  | zero => exact ⟨rfl, by simp [LiveMonitor.scheduledAfterCloses]⟩
  | succ m ih =>
      constructor
      · simp [LiveMonitor.scheduledAfterCloses, LiveMonitor.ws_onclose, ih.1]
      · intro t ht
        simp only [LiveMonitor.scheduledAfterCloses, LiveMonitor.ws_onclose,
          List.mem_append, List.mem_singleton] at ht
        rcases ht with ht | ht
        · exact ih.2 t ht
        · exact ht

/-- C4 witness: after two close events exactly two timers are scheduled,
and the one exhibited is the fixed 3000 ms reconnect. -/
theorem C4_reconnect_single_fixed_delay_witness :
    (LiveMonitor.scheduledAfterCloses 2).length = 2 ∧
      (⟨3000, ScheduledAction.reconnectWebSocket⟩ : Timer) ∈
        LiveMonitor.scheduledAfterCloses 2 ∧
      (⟨3000, ScheduledAction.reconnectWebSocket⟩ : Timer) =
        ⟨3000, ScheduledAction.reconnectWebSocket⟩ :=
  ⟨(C4_reconnect_single_fixed_delay.2.2 2).1, by decide,
    (C4_reconnect_single_fixed_delay.2.2 2).2 _ (by decide)⟩

/-- C5 counterexample: on the very first live-monitor stream-load error
(retry count 0), `handleVideoError` schedules an automatic retry of the
video stream (a `refreshStream` after 1000 ms) with no user
notification — an automatic retry of a failed resource load other than
the WebSocket reconnect. -/
theorem C5_auto_retry_counterexample :
    LiveMonitor.handleVideoError 0 =
        (1, [], [⟨1000, ScheduledAction.refreshStream⟩]) ∧
      ([⟨1000, ScheduledAction.refreshStream⟩] : List Timer) ≠ [] := by
  exact ⟨rfl, by decide⟩

/-- C5 (amended): failures surface as one-shot notifications and are not
automatically retried, except the WebSocket reconnect and the
live-monitor video stream: its error handler silently schedules a stream
refresh after 1000 * (n + 1) ms for the first three errors (n the prior
retry count) and only surfaces a one-shot notification from the fourth
error on; the zones-page video error handler surfaces one notification
and schedules nothing. -/
theorem C5_video_error_policy :
    (∀ n, n < 3 →
        LiveMonitor.handleVideoError n =
          (n + 1, [], [⟨1000 * (n + 1), ScheduledAction.refreshStream⟩])) ∧
      (∀ n, 3 ≤ n →
        LiveMonitor.handleVideoError n =
          (n, [Msg.error "视频流连接失败，请稍后重试"], [])) ∧
      ∀ b, Zones.handleVideoError b =
        (true, [Msg.error "视频流连接失败，请检查摄像头状态"], []) := by
  refine ⟨?_, ?_, fun b => rfl⟩
  · intro n h
    simp [LiveMonitor.handleVideoError, h]
  · intro n h
    have h3 : ¬ n < 3 := by omega
    simp [LiveMonitor.handleVideoError, h3]

/-- C5 witness: the first error schedules a 1000 ms refresh silently;
the fourth error surfaces the notification and schedules nothing. -/
theorem C5_video_error_policy_witness :
    (0 : Nat) < 3 ∧
      LiveMonitor.handleVideoError 0 =
        (1, [], [⟨1000, ScheduledAction.refreshStream⟩]) ∧
      (3 : Nat) ≤ 3 ∧
      LiveMonitor.handleVideoError 3 =
        (3, [Msg.error "视频流连接失败，请稍后重试"], []) :=
  ⟨by decide, by simpa using C5_video_error_policy.1 0 (by decide),
    by decide, C5_video_error_policy.2.1 3 (by decide)⟩

/-- C7: the status switch flips the displayed flag immediately; when the
status-update request succeeds the flipped value persists, and when it
fails the handler rolls the row back to exactly its pre-toggle value. -/
theorem C7_toggle_optimistic_rollback :
    ∀ (u : FaceAdmin.FaceUser),
      (FaceAdmin.switchToggle u).is_active = !u.is_active ∧
        (FaceAdmin.toggleFlow u true).1.is_active = !u.is_active ∧
        (FaceAdmin.toggleFlow u false).1 = u := by
  intro u
  refine ⟨rfl, rfl, ?_⟩
  cases u with
  | mk id active => cases active <;> rfl

/-- C9: with slide verification not yet succeeded, neither the login nor
the register handler issues any request (any issued request implies the
flag was set); and `endSlide` on a drag release succeeds exactly when
the thumb offset reached trackWidth - thumbWidth - 5, snapping the thumb
to trackWidth - thumbWidth and setting the verified flag, while any
shorter release resets the thumb to 0 and emits failure. -/
theorem C9_slide_gate :
    (∀ (fv : Bool) (r : Option Bool),
        (Login.handleLogin false fv r).2.2 = []) ∧
      (∀ (fv : Bool) (r : Option Bool),
        (Login.handleRegister false fv r).2.2 = []) ∧
      (∀ (v fv : Bool) (r : Option Bool),
        (Login.handleLogin v fv r).2.2 ≠ [] → v = true) ∧
      (∀ (v fv : Bool) (r : Option Bool),
        (Login.handleRegister v fv r).2.2 ≠ [] → v = true) ∧
      ∀ (s : SlideVerify.SlideState), s.isDragging = true →
        ((SlideVerify.endSlide s).2 = [SlideVerify.SlideEmit.verifySuccess] ↔
            s.trackWidth - SlideVerify.thumbWidth - 5 ≤ s.thumbLeft) ∧
          (s.trackWidth - SlideVerify.thumbWidth - 5 ≤ s.thumbLeft →
            (SlideVerify.endSlide s).1.thumbLeft =
                s.trackWidth - SlideVerify.thumbWidth ∧
              (SlideVerify.endSlide s).1.isVerified = true) ∧
          (s.thumbLeft < s.trackWidth - SlideVerify.thumbWidth - 5 →
            (SlideVerify.endSlide s).1.thumbLeft = 0 ∧
              (SlideVerify.endSlide s).2 =
                [SlideVerify.SlideEmit.verifyFail]) := by
  refine ⟨fun fv r => rfl, fun fv r => rfl, ?_, ?_, ?_⟩
  · intro v fv r h
    cases v
    · exact absurd rfl h
    · rfl
  · intro v fv r h
    cases v
    · exact absurd rfl h
    · rfl
  · intro s hd
    refine ⟨⟨?_, ?_⟩, ?_, ?_⟩
    · intro h
      by_contra hlt
      push_neg at hlt
      have hfail : (SlideVerify.endSlide s).2 =
          [SlideVerify.SlideEmit.verifyFail] := by
        simp [SlideVerify.endSlide, hd, not_le.mpr hlt]
      rw [hfail] at h
      simp at h
    · intro h
      simp [SlideVerify.endSlide, hd, h]
    · intro h
      constructor <;> simp [SlideVerify.endSlide, hd, h]
    · intro h
      have hn : ¬ s.trackWidth - SlideVerify.thumbWidth - 5 ≤ s.thumbLeft :=
        not_le.mpr h
      constructor <;> simp [SlideVerify.endSlide, hd, hn]

/-- C9 witness: on the 300-wide track, releasing the thumb at offset 256
(past the 255 threshold) succeeds and snaps the thumb to 260; with the
verified flag still false the login handler issues no request. -/
theorem C9_slide_gate_witness :
    (Login.handleLogin false true (some true)).2.2 = [] ∧
      (⟨300, 256, true, false⟩ : SlideVerify.SlideState).isDragging = true ∧
      (SlideVerify.endSlide ⟨300, 256, true, false⟩).2 =
        [SlideVerify.SlideEmit.verifySuccess] ∧
      (SlideVerify.endSlide ⟨300, 256, true, false⟩).1.thumbLeft = 260 := by
  have hth : (⟨300, 256, true, false⟩ :
      SlideVerify.SlideState).trackWidth - SlideVerify.thumbWidth - 5 ≤
        (⟨300, 256, true, false⟩ : SlideVerify.SlideState).thumbLeft := by
    norm_num [SlideVerify.thumbWidth]
  have h := C9_slide_gate.2.2.2.2 ⟨300, 256, true, false⟩ rfl
  refine ⟨C9_slide_gate.1 true (some true), rfl, h.1.mpr hth, ?_⟩
  have h2 := (h.2.1 hth).1
  rw [h2]
  norm_num [SlideVerify.thumbWidth]
